import Mathlib

/-!
Verification development for the outbound intake-call orchestration engine
(`agent.py`, `main.py`): the dial-attempt supervisor, the conversation
state machine, the note-to-question planner, the patient-info recording
step, and the call scheduler.  Python dicts holding the intake record are
embedded as structures, the event-driven session as an explicit step
function on a state type, and the dial loop as a recursion over the
remaining attempt budget.  File and network I/O (writing a report file,
the SIP transport, text-to-speech) is represented by explicit output
events; report text rendering (`generate_medical_report`) produces display
text that no claim depends on, so the machine is parameterized by it.
-/

namespace IntakeAgent

/-! ### String helpers

Python's `needle in hay` substring test, `str.strip`, `str.lower`.
`strContains hay needle` is `needle in hay`.
-/

def isPrefixChars : List Char → List Char → Bool
  | [], _ => true
  | _ :: _, [] => false
  | a :: as, b :: bs => a = b && isPrefixChars as bs

def isSubChars (needle : List Char) : List Char → Bool
  | [] => isPrefixChars needle []
  | b :: bs => isPrefixChars needle (b :: bs) || isSubChars needle bs

def strContains (hay needle : String) : Bool :=
  isSubChars needle.toList hay.toList

/-- Python `str.lower` (ASCII case mapping; the phrase sets and keywords
are ASCII). -/
def str_lower (s : String) : String := String.mk (s.toList.map Char.toLower)

/-- Python `str.strip()`. -/
def str_strip (s : String) : String :=
  String.mk (((s.toList.dropWhile Char.isWhitespace).reverse.dropWhile
    Char.isWhitespace).reverse)

/-- Python `str.replace(pat, rep)`: leftmost, non-overlapping.  Every step
consumes at least one character of the haystack, so recursion on a fuel of
`hay.length` keeps the definition structural (hence computable by the
kernel). -/
def replaceChars (pat rep : List Char) : Nat → List Char → List Char
  | 0, l => l
  | Nat.succ n, l =>
    match l with
    | [] => []
    | c :: rest =>
      if isPrefixChars pat (c :: rest) = true ∧ pat ≠ [] then
        rep ++ replaceChars pat rep n (rest.drop (pat.length - 1))
      else c :: replaceChars pat rep n rest

def str_replace (s pat rep : String) : String :=
  String.mk (replaceChars pat.toList rep.toList s.toList.length s.toList)

/-- Python `str.split()`: split on whitespace runs, dropping empties. -/
def splitWsAux : List Char → List Char → List String
  | [], cur => if cur.isEmpty then [] else [String.mk cur.reverse]
  | c :: rest, cur =>
    if c.isWhitespace then
      if cur.isEmpty then splitWsAux rest []
      else String.mk cur.reverse :: splitWsAux rest []
    else splitWsAux rest (c :: cur)

def str_split_ws (s : String) : List String := splitWsAux s.toList []

/-- Python `str.startswith(pre)`. -/
def str_startswith (s pre : String) : Bool := isPrefixChars pre.toList s.toList

def joinSep (sep : String) : List String → String
  | [] => ""
  | [s] => s
  | s :: rest => s ++ sep ++ joinSep sep rest

/-! ### Intake record (`OutboundCaller.patient_info`, agent.py lines 228-257)

The nested dicts become structures.  `pertinent_negatives` is initialized
as a Python list, but the generic `ros` branch of `record_patient_info`
can overwrite it with a plain string (the dict is untyped), so the field
carries both shapes.
-/

structure HPI where
  onset : String
  provocation : String
  quality : String
  radiation : String
  severity : String
  timing : String
  duration : String
deriving DecidableEq

inductive PNField where
  | list (items : List String)
  | str (s : String)
deriving DecidableEq

structure ROS where
  constitutional : String
  cardiovascular : String
  respiratory : String
  gastrointestinal : String
  musculoskeletal : String
  neurological : String
  psychiatric : String
  pertinent_negatives : PNField
deriving DecidableEq

structure PatientInfo where
  name : String
  appointment_date : String
  chief_complaint : String
  history_of_present_illness : HPI
  review_of_systems : ROS
  medications : String
  allergies : String
  past_medical_history : String
  social_history : String
  family_history : String
  additional_notes : String
deriving DecidableEq

def emptyPatientInfo : PatientInfo :=
  { name := "", appointment_date := "", chief_complaint := ""
    history_of_present_illness :=
      { onset := "", provocation := "", quality := "", radiation := ""
        severity := "", timing := "", duration := "" }
    review_of_systems :=
      { constitutional := "", cardiovascular := "", respiratory := ""
        gastrointestinal := "", musculoskeletal := "", neurological := ""
        psychiatric := "", pertinent_negatives := .list [] }
    medications := "", allergies := "", past_medical_history := ""
    social_history := "", family_history := "", additional_notes := "" }

/-- Keys of the `history_of_present_illness` dict. -/
def hpiKeys : List String :=
  ["onset", "provocation", "quality", "radiation", "severity", "timing", "duration"]

/-- String-valued keys of the `review_of_systems` dict. -/
def rosStrKeys : List String :=
  ["constitutional", "cardiovascular", "respiratory", "gastrointestinal",
   "musculoskeletal", "neurological", "psychiatric"]

/-- `self.patient_info["history_of_present_illness"][key] = value`. -/
def hpiSet (h : HPI) (key value : String) : HPI :=
  if key = "onset" then { h with onset := value }
  else if key = "provocation" then { h with provocation := value }
  else if key = "quality" then { h with quality := value }
  else if key = "radiation" then { h with radiation := value }
  else if key = "severity" then { h with severity := value }
  else if key = "timing" then { h with timing := value }
  else if key = "duration" then { h with duration := value }
  else h

/-- `self.patient_info["review_of_systems"][key] = value` for a string key. -/
def rosSet (r : ROS) (key value : String) : ROS :=
  if key = "constitutional" then { r with constitutional := value }
  else if key = "cardiovascular" then { r with cardiovascular := value }
  else if key = "respiratory" then { r with respiratory := value }
  else if key = "gastrointestinal" then { r with gastrointestinal := value }
  else if key = "musculoskeletal" then { r with musculoskeletal := value }
  else if key = "neurological" then { r with neurological := value }
  else if key = "psychiatric" then { r with psychiatric := value }
  else r

/-- Python truthiness of the optional `subcategory` argument (`None` and
`""` are falsy). -/
def optTruthy : Option String → Bool
  | none => false
  | some s => if s = "" then false else true

/-- Result status dict of `record_patient_info`: `info_recorded`, the
`ignored` short-circuit for pre-visit flags, or the `except` branch that
catches an exception and returns an error dict instead of raising. -/
inductive RecordStatus where
  | recorded
  | ignored
  | error
deriving DecidableEq

/-- The `info_type == "hpi" and subcategory` branch of `record_patient_info`
(agent.py lines 715-726): known (or synonym-mapped) HPI subcategories go to
their slot, unknown ones are appended to `additional_notes`. -/
def record_hpi (pi : PatientInfo) (value sub : String) : PatientInfo × RecordStatus :=
  let mapped := if sub = "description" then "quality" else sub
  if mapped ∈ hpiKeys then
    ({ pi with history_of_present_illness := hpiSet pi.history_of_present_illness mapped value }, .recorded)
  else
    let existing := pi.additional_notes
    let joiner := if existing ≠ "" then "\n" else ""
    ({ pi with additional_notes := existing ++ joiner ++ "HPI (" ++ sub ++ "): " ++ value }, .recorded)

/-- The `info_type == "ros" and subcategory` branch (agent.py lines
727-732): dict keys (including `pertinent_negatives`, which a string value
overwrites) and the dyspnea synonym; any other subcategory records
nothing. -/
def record_ros (pi : PatientInfo) (value sub : String) : PatientInfo × RecordStatus :=
  if sub ∈ rosStrKeys then
    ({ pi with review_of_systems := rosSet pi.review_of_systems sub value }, .recorded)
  else if sub = "pertinent_negatives" then
    ({ pi with review_of_systems := { pi.review_of_systems with pertinent_negatives := .str value } }, .recorded)
  else if str_lower sub = "dyspnea" then
    ({ pi with review_of_systems := { pi.review_of_systems with respiratory := value } }, .recorded)
  else
    (pi, .recorded)

/-- The final `else` of `record_patient_info` (agent.py lines 747-776):
"Map some common unknown categories to safe fields", else fall back to
`additional_notes`. -/
def record_unknown (pi : PatientInfo) (info_type value : String)
    (subcategory : Option String) : PatientInfo × RecordStatus :=
  let low := str_lower info_type
  if strContains low "pre-visit" then (pi, .ignored)
  else if strContains low "infection" || strContains low "fever" ||
          strContains low "post-op" || strContains low "postop" then
    ({ pi with review_of_systems := { pi.review_of_systems with constitutional := value } }, .recorded)
  else if strContains low "anesthesia" then
    let pmh := pi.past_medical_history
    let joiner := if pmh ≠ "" then "; " else ""
    ({ pi with past_medical_history := str_strip (pmh ++ joiner ++ "Anesthesia: " ++ value) }, .recorded)
  else if strContains low "sleep" || strContains low "apnea" then
    let existing_ros := pi.review_of_systems.respiratory
    let tag := str_replace (if optTruthy subcategory then subcategory.getD "" else "OSA") "_" " "
    let human_item := if value ≠ "" ∧ ¬(str_lower value = "yes" ∨ str_lower value = "no") then value else tag
    let new_ros := str_strip (existing_ros ++ (if existing_ros ≠ "" ∧ human_item ≠ "" then "; " else "") ++ human_item)
    let pi2 := { pi with review_of_systems := { pi.review_of_systems with respiratory := new_ros } }
    if str_startswith (str_lower (subcategory.getD "")) "daytime" then
      ({ pi2 with history_of_present_illness :=
          { pi2.history_of_present_illness with timing := "daytime sleepiness present" } }, .recorded)
    else (pi2, .recorded)
  else if strContains low "chest" && strContains low "pain" then
    let q := pi.history_of_present_illness.quality
    ({ pi with history_of_present_illness :=
        { pi.history_of_present_illness with quality := str_strip (q ++ (if q ≠ "" then "; " else "") ++ value) } }, .recorded)
  else
    let existing := pi.additional_notes
    let joiner := if existing ≠ "" then "\n" else ""
    let tag := if optTruthy subcategory then " (" ++ subcategory.getD "" ++ ")" else ""
    ({ pi with additional_notes := existing ++ joiner ++ info_type ++ tag ++ ": " ++ value }, .recorded)

/-- The `pertinent_negative` branch (agent.py lines 733-734): appends to
the negatives list; if the generic `ros` branch overwrote the list with a
string, `.append` raises `AttributeError`, which the `except` turns into
the error status. -/
def record_pertinent_negative (pi : PatientInfo) (value : String) :
    PatientInfo × RecordStatus :=
  match pi.review_of_systems.pertinent_negatives with
  | .list l =>
    ({ pi with review_of_systems := { pi.review_of_systems with pertinent_negatives := .list (l ++ [value]) } }, .recorded)
  | .str _ => (pi, .error)

/-- `record_patient_info` (agent.py lines 690-788), the recording step that
routes a category/value pair into the intake record; the chained
conditionals dispatch to the branch blocks above. -/
def record_patient_info (pi : PatientInfo) (info_type value : String)
    (subcategory : Option String) : PatientInfo × RecordStatus :=
  if info_type = "name" then ({ pi with name := value }, .recorded)
  else if info_type = "appointment_date" then ({ pi with appointment_date := value }, .recorded)
  else if info_type = "chief_complaint" then ({ pi with chief_complaint := value }, .recorded)
  else if info_type = "infection" then
    ({ pi with review_of_systems := { pi.review_of_systems with constitutional := value } }, .recorded)
  else if info_type = "hpi" ∧ optTruthy subcategory = true then
    record_hpi pi value (subcategory.getD "")
  else if info_type = "ros" ∧ optTruthy subcategory = true then
    record_ros pi value (subcategory.getD "")
  else if info_type = "pertinent_negative" then
    record_pertinent_negative pi value
  else if info_type = "medications" then ({ pi with medications := value }, .recorded)
  else if info_type = "allergies" then ({ pi with allergies := value }, .recorded)
  else if info_type = "pmh" ∨ info_type = "past_medical_history" then
    ({ pi with past_medical_history := value }, .recorded)
  else if info_type = "social" then ({ pi with social_history := value }, .recorded)
  else if info_type = "family" then ({ pi with family_history := value }, .recorded)
  else if info_type = "additional" then ({ pi with additional_notes := value }, .recorded)
  else
    record_unknown pi info_type value subcategory

/-- Number of nonempty (after strip) strings in a list. -/
def countNonempty (l : List String) : Nat :=
  (l.filter (fun s => str_strip s ≠ "")).length

/-- `_count_recorded_items` (agent.py lines 295-313): number of structured
fields recorded, over the listed top-level keys, the HPI subfields and the
string-valued ROS subfields (`pertinent_negatives` is skipped). -/
def _count_recorded_items (pi : PatientInfo) : Nat :=
  countNonempty [pi.chief_complaint, pi.medications, pi.allergies,
                 pi.past_medical_history, pi.name, pi.appointment_date]
  + countNonempty [pi.history_of_present_illness.onset, pi.history_of_present_illness.provocation,
                   pi.history_of_present_illness.quality, pi.history_of_present_illness.radiation,
                   pi.history_of_present_illness.severity, pi.history_of_present_illness.timing,
                   pi.history_of_present_illness.duration]
  + countNonempty [pi.review_of_systems.constitutional, pi.review_of_systems.cardiovascular,
                   pi.review_of_systems.respiratory, pi.review_of_systems.gastrointestinal,
                   pi.review_of_systems.musculoskeletal, pi.review_of_systems.neurological,
                   pi.review_of_systems.psychiatric]

/-! ### Note-to-question planner (`_questions_from_note`, agent.py lines 1050-1095) -/

/-- Boilerplate headers removed from the note before clause splitting. -/
def junkHeaders : List String :=
  ["PRE-VISIT MEDICAL INTAKE REPORT", "Report Details:"]

def stripJunk (text : String) : String :=
  junkHeaders.foldl (fun t j => str_replace t j " ") text

/-- Clause splitter for `re.split(r"[;\x5cn]+|(?<=[.])\x5cs+", text)`:
a run of semicolons/newlines is a clause boundary, and so is a whitespace
run immediately preceded by a period.  Splitting at each delimiter char
individually is equivalent after the strip-and-drop-empties step below.
Arguments: remaining characters, previous character (for the lookbehind),
current clause accumulated in reverse. -/
def splitClausesAux : List Char → Char → List Char → List (List Char)
  | [], _, cur => [cur.reverse]
  | c :: rest, prev, cur =>
    if c = ';' ∨ c = '\n' then cur.reverse :: splitClausesAux rest c []
    else if c.isWhitespace ∧ prev = '.' then cur.reverse :: splitClausesAux rest c []
    else splitClausesAux rest c (c :: cur)

/-- `[p.strip() for p in re.split(...) if p.strip()]`. -/
def splitClauses (text : String) : List String :=
  ((splitClausesAux text.toList ' ' []).map (fun cs => str_strip (String.mk cs))).filter
    (fun p => p ≠ "")

def fallbackQuestion : String :=
  "Based on your doctor’s note, what symptoms are you experiencing right now?"

/-- The ordered keyword → question rules applied to one clause; a clause
matching no rule yields the generic fallback question. -/
def ruleQuestion (p : String) : String :=
  let low := str_lower p
  if strContains low "functional capacity" || strContains low "climb" then
    "Can you climb two flights of stairs or carry groceries without symptoms?"
  else if strContains low "heart" || strContains low "lung" || strContains low "kidney" then
    "Do you have a history of heart, lung, or kidney disease?"
  else if strContains low "chest pain" || strContains low "dyspnea" ||
          strContains low "shortness of breath" then
    "Do you get chest pain or shortness of breath with exertion?"
  else if strContains low "sleep apnea" || strContains low "obstructive" then
    "Have you been told you have obstructive sleep apnea or do you snore loudly and stop breathing during sleep?"
  else if strContains low "anesthesia" then
    "Have you had any problems with anesthesia in the past?"
  else if strContains low "anticoagulant" || strContains low "antiplatelet" ||
          strContains low "sglt2" || strContains low "current meds" || strContains low "meds" then
    "What prescription medications are you taking now, including any blood thinners or SGLT2 inhibitors?"
  else if strContains low "infection" || strContains low "fever" then
    "Have you had any recent infections or fevers?"
  else if strContains low "allerg" then
    "Do you have any medication or latex allergies?"
  else
    fallbackQuestion

/-- `True` exactly when the clause matches none of the keyword rules. -/
def matchesNoRule (p : String) : Bool :=
  let low := str_lower p
  !(strContains low "functional capacity" || strContains low "climb" ||
    strContains low "heart" || strContains low "lung" || strContains low "kidney" ||
    strContains low "chest pain" || strContains low "dyspnea" ||
    strContains low "shortness of breath" ||
    strContains low "sleep apnea" || strContains low "obstructive" ||
    strContains low "anesthesia" ||
    strContains low "anticoagulant" || strContains low "antiplatelet" ||
    strContains low "sglt2" || strContains low "current meds" || strContains low "meds" ||
    strContains low "infection" || strContains low "fever" ||
    strContains low "allerg")

/-- The nine fixed question strings the planner can render. -/
def fixedQuestions : List String :=
  ["Can you climb two flights of stairs or carry groceries without symptoms?",
   "Do you have a history of heart, lung, or kidney disease?",
   "Do you get chest pain or shortness of breath with exertion?",
   "Have you been told you have obstructive sleep apnea or do you snore loudly and stop breathing during sleep?",
   "Have you had any problems with anesthesia in the past?",
   "What prescription medications are you taking now, including any blood thinners or SGLT2 inhibitors?",
   "Have you had any recent infections or fevers?",
   "Do you have any medication or latex allergies?",
   fallbackQuestion]

/-- The final case-insensitive dedup-and-cap loop: keep the first `k`
questions whose lowercase form was not seen before (`k = 12` at the call
site; the source breaks out of the loop once `final` reaches 12, right
after the append). -/
def dedupTake : Nat → List String → List String → List String
  | _, _, [] => []
  | 0, _, _ => []
  | Nat.succ k, seen, q :: rest =>
    if str_lower q ∈ seen then dedupTake (Nat.succ k) seen rest
    else q :: dedupTake k (str_lower q :: seen) rest

/-- `_questions_from_note`: strip, remove headers, split into clauses, map
each clause through the keyword rules, dedup case-insensitively, cap at 12. -/
def _questions_from_note (note : String) : List String :=
  let text := stripJunk (str_strip note)
  if text = "" then []
  else dedupTake 12 [] ((splitClauses text).map ruleQuestion)

/-! ### Dial-attempt supervisor (`entrypoint` dialing loop, agent.py lines 1267-1319)

One `create_sip_participant` call either answers, times out
(`asyncio.TimeoutError`), or is rejected by the telephony layer
(`api.TwirpError` with a SIP status code/text).  The loop trace records
each attempt, the sleeps between attempts, the no-answer note written by
`save_no_answer_note`, the `ctx.shutdown()` call, and reaching the
connected continuation after `dial_success`.
-/

inductive DialOutcome where
  | answered
  | timeout
  | rejected (code status : String)
deriving DecidableEq

inductive DialEvent where
  | attempt (i : Nat)
  | sleep (seconds : Nat)
  | note (reason : String)
  | shutdown
  | connected
deriving DecidableEq

/-- `total_attempts = max(1, per_call_retry + 1)`. -/
def total_attempts (per_call_retry : Nat) : Nat := max 1 (per_call_retry + 1)

/-- The `for attempt_idx in range(1, total_attempts + 1)` loop, recursing on
the remaining attempt budget; `idx` is the current 1-based attempt index. -/
def dialRun (outcome : Nat → DialOutcome) (per_call_delay : Nat) :
    Nat → Nat → List DialEvent
  | _, 0 => []
  | idx, Nat.succ r =>
    DialEvent.attempt idx ::
      match outcome idx with
      | .answered => [DialEvent.connected]
      | .timeout =>
        if r = 0 then [DialEvent.note "timeout", DialEvent.shutdown]
        else DialEvent.sleep per_call_delay :: dialRun outcome per_call_delay (idx + 1) r
      | .rejected code status =>
        [DialEvent.note ("SIP error " ++ code ++ " " ++ status), DialEvent.shutdown]

/-- The dialing phase of `entrypoint` for a resolved per-call retry count
and delay. -/
def entrypoint_dial (outcome : Nat → DialOutcome) (per_call_retry per_call_delay : Nat) :
    List DialEvent :=
  dialRun outcome per_call_delay 1 (total_attempts per_call_retry)

def isAttemptEvent : DialEvent → Bool
  | .attempt _ => true
  | _ => false

def isNoteEvent : DialEvent → Bool
  | .note _ => true
  | _ => false

def isSleepEvent : DialEvent → Bool
  | .sleep _ => true
  | _ => false

def countAttempts (tr : List DialEvent) : Nat := (tr.filter isAttemptEvent).length

/-! ### Call scheduler (`EnhancedCallManager`, main.py)

The in-memory `scheduled_calls` dict becomes an association list; times are
already-parsed naive timestamps (the loop normalizes aware timestamps to
naive before comparing, so a single integer timeline models them).
-/

structure ScheduledCall where
  phone_number : String
  patient_name : String
  priority : String
  scheduled_time : Int
  status : String
deriving DecidableEq

/-- `cancel_scheduled_call` (main.py lines 303-308): if the id is present,
set that request's status to `cancelled` and report success, else report
failure; the request map is otherwise unchanged. -/
def cancel_scheduled_call (calls : List (String × ScheduledCall)) (schedule_id : String) :
    List (String × ScheduledCall) × Bool :=
  if calls.any (fun p => p.1 == schedule_id) then
    (calls.map (fun p => if p.1 = schedule_id then (p.1, { p.2 with status := "cancelled" }) else p),
     true)
  else (calls, false)

/-- The retention prune at the end of each `_scheduler_loop` iteration
(main.py lines 273-287): collect the ids whose status is `completed` or
`failed` and whose scheduled time is older than the 24h cutoff, then delete
them; net effect on the map is this filter. -/
def prune_expired (calls : List (String × ScheduledCall)) (cutoff : Int) :
    List (String × ScheduledCall) :=
  calls.filter (fun p =>
    !((p.2.status == "completed" || p.2.status == "failed") && decide (p.2.scheduled_time < cutoff)))

/-! ### Conversation state machine (`OutboundCaller` + `on_user_message`, agent.py)

The per-call session is single-threaded and event-driven: each inbound
user message runs `on_user_message`, which may spawn one `simple_sequence`
task; tasks spawned for a message run before the next message is handled,
so a step processes the handler together with its spawned work.  Outbound
effects (speech, report persistence, hangup) are recorded as outputs.
`note_questions` / `note_q_idx` / the session-level `doctor_note` are
loop-scoped closure variables in the source; they live on the state here.
Report text rendering (`generate_medical_report`, lines 473-688) only
produces display text no claim depends on, so the machine takes the
generator `gen` as a parameter.
-/

structure CallSummary where
  patient_info : PatientInfo
  status : String
  medical_report : String
deriving DecidableEq

structure ConvState where
  patient_info : PatientInfo
  doctor_note : String
  note_questions : List String
  note_q_idx : Nat
  question_count : Nat
  last_question : Option String
  call_summary : Option CallSummary
  ready_to_end : Bool
  awaiting_confirmation : Bool
  user_confirmed : Bool
  summary_done : Bool
  confirmation_handled : Bool
  id_chief_done : Bool
  awaiting_user_reply : Bool
deriving DecidableEq

/-- `self.note_mode = bool(self.doctor_note)`. -/
def ConvState.note_mode (st : ConvState) : Bool :=
  if st.doctor_note = "" then false else true

/-- Outbound effects of one step.  `utter text question` is a
`session.say`; `question` marks the utterances that ask the user something
(each say site is classified once, at the call site it embeds).
`llmQuestion` is the standard-mode `generate_reply` instructed to ask
exactly one question; `llmSay` is a `generate_reply` producing a statement.
`persistReport` is `save_medical_report` of a summary with the given
`status` and `call_duration` (the rendered report text is display-only). -/
inductive Output where
  | utter (text : String) (question : Bool)
  | llmQuestion
  | llmSay
  | persistReport (status call_duration : String)
  | waitPlayout
  | hangup
deriving DecidableEq

def Output.isQuestion : Output → Bool
  | .utter _ q => q
  | .llmQuestion => true
  | _ => false

/-- `end_call` (agent.py lines 362-403): blocked in note mode until a
summary was delivered (`ready_to_end`); otherwise persists the final
report (status `call_ended`, or `call_ended_no_answers_note_mode` when a
doctor note is present and nothing was recorded), waits for playout and
hangs up.  It changes no agent state. -/
def end_call (st : ConvState) : ConvState × List Output :=
  if st.note_mode && !st.ready_to_end then (st, [.llmSay])
  else
    let status :=
      if st.doctor_note ≠ "" ∧ _count_recorded_items st.patient_info = 0 then
        "call_ended_no_answers_note_mode"
      else "call_ended"
    (st, [.persistReport status "completed", .waitPlayout, .hangup])

/-- Note-driven patient-facing summary in `summarize_and_confirm`
(agent.py lines 819-835). -/
def notePatientSummary (pi : PatientInfo) : String :=
  let parts :=
    (if pi.chief_complaint ≠ "" then ["Primary concern: " ++ pi.chief_complaint] else [])
    ++ (if pi.past_medical_history ≠ "" then ["Medical history: " ++ pi.past_medical_history] else [])
    ++ (if pi.medications ≠ "" then ["Medications: " ++ pi.medications] else [])
    ++ (if pi.allergies ≠ "" then ["Allergies: " ++ pi.allergies] else [])
  if parts ≠ [] then "I’ve collected: " ++ joinSep ". " parts ++ "."
  else "I’ve captured your details."

/-- Standard-mode patient-facing summary in `summarize_and_confirm`
(agent.py lines 836-857). -/
def stdPatientSummary (pi : PatientInfo) : String :=
  let onset_txt := pi.history_of_present_illness.onset
  let sev_txt := pi.history_of_present_illness.severity
  let dur_txt := pi.history_of_present_illness.duration
  let hpi_bits :=
    (if onset_txt ≠ "" then ["started " ++ onset_txt] else [])
    ++ (if sev_txt ≠ "" then ["severity " ++ sev_txt] else [])
    ++ (if dur_txt ≠ "" then ["duration " ++ dur_txt] else [])
  let parts :=
    ["Primary concern: " ++ (if pi.chief_complaint ≠ "" then pi.chief_complaint else "not provided") ++ "."]
    ++ (if hpi_bits ≠ [] then ["History of illness: " ++ joinSep ", " hpi_bits ++ "."] else [])
    ++ ["Medical history: " ++ (if pi.past_medical_history ≠ "" then pi.past_medical_history else "none reported") ++ ".",
        "Current medications: " ++ (if pi.medications ≠ "" then pi.medications else "none") ++ ".",
        "Allergies: " ++ (if pi.allergies ≠ "" then pi.allergies else "none") ++ "."]
  joinSep " " parts

/-- `summarize_and_confirm` (agent.py lines 790-888): no-op once confirmed,
or while already awaiting confirmation, or once the summary was delivered;
otherwise stores the generated report in `call_summary`, raises the
confirmation flags, speaks the patient-facing summary and asks
"Is this information correct?". -/
def summarize_and_confirm (gen : ConvState → String) (st : ConvState) :
    ConvState × List Output :=
  if st.user_confirmed then (st, [])
  else if st.summary_done && st.awaiting_confirmation then (st, [])
  else if st.summary_done then (st, [])
  else
    let medical_report := gen st
    let patient_summary :=
      if st.doctor_note ≠ "" then notePatientSummary st.patient_info
      else stdPatientSummary st.patient_info
    ({ st with
        call_summary := some { patient_info := st.patient_info,
                               status := "summary_generated",
                               medical_report := medical_report }
        ready_to_end := true
        awaiting_confirmation := true
        user_confirmed := false
        summary_done := true },
     [.utter patient_summary false, .utter "Is this information correct?" true])

/-- The `simple_sequence` coroutine spawned by `on_user_message`
(agent.py lines 1187-1233): the turn-taking guard, the chief-complaint
prompt, the note-driven question feed with its exhaustion handling, and
the standard-mode one-question `generate_reply`. -/
def simple_sequence (gen : ConvState → String) (st : ConvState) :
    ConvState × List Output :=
  if st.awaiting_user_reply then (st, [])
  else if !st.id_chief_done then
    ({ st with id_chief_done := true, awaiting_user_reply := true },
     [.utter "What is the main reason for your visit today?" true])
  else if st.note_mode && !st.note_questions.isEmpty then
    if st.note_q_idx < st.note_questions.length then
      let q := st.note_questions.getD st.note_q_idx ""
      ({ st with note_q_idx := st.note_q_idx + 1, last_question := some q,
                 question_count := st.question_count + 1, awaiting_user_reply := true },
       [.utter q true])
    else if 3 ≤ _count_recorded_items st.patient_info then
      ({ (summarize_and_confirm gen st).1 with awaiting_user_reply := true },
       (summarize_and_confirm gen st).2)
    else
      ({ st with awaiting_user_reply := true },
       [.utter "Before I summarize, is there anything else important you want your provider to know?" true])
  else
    ({ st with question_count := st.question_count + 1, awaiting_user_reply := true },
     [.llmQuestion])

def end_set : List String :=
  ["end call", "hang up", "goodbye", "end the call", "finish", "we are done",
   "that\x27s all", "no that\x27s all", "no its all", "no it\x27s all"]

def yes_set : List String :=
  ["yes", "yep", "yeah", "correct", "that\x27s correct", "its correct",
   "it\x27s correct", "ok", "okay", "k"]

def no_set : List String :=
  ["no", "nope", "not correct", "needs changes", "change", "adjust", "incorrect"]

def repeat_set : List String :=
  ["repeat", "say again", "again", "could you repeat", "repeat it", "repeat summary"]

/-- `any(phrase in meta for phrase in s)`. -/
def phraseMatch (meta : String) (s : List String) : Bool :=
  s.any (fun p => strContains meta p)

def monthWords : List String :=
  ["january", "february", "march", "april", "may", "june", "july", "august",
   "september", "october", "november", "december", "jan", "feb", "mar", "apr",
   "may", "jun", "jul", "aug", "sep", "oct", "nov", "dec"]

/-- The opportunistic name / appointment-date capture in `on_user_message`
(agent.py lines 1168-1181).  `potential.split()` drops empty tokens;
`isalpha` / `isdigit` are per-character tests over the whole reply. -/
def nameDateCapture (st : ConvState) (text : String) : ConvState :=
  let st1 :=
    if st.patient_info.name = "" then
      let potential := str_strip text
      let words := str_split_ws potential
      if (2 ≤ words.length ∧ words.length ≤ 5) ∧ potential.toList.any Char.isAlpha then
        { st with patient_info := { st.patient_info with name := potential } }
      else st
    else st
  if st1.patient_info.appointment_date = "" then
    let potential := str_strip text
    if monthWords.any (fun w => strContains (str_lower potential) w) ||
       potential.toList.any Char.isDigit then
      { st1 with patient_info := { st1.patient_info with appointment_date := potential } }
    else st1
  else st1

/-- `on_user_message` (agent.py lines 1109-1233): clear the turn-taking
flag, detect end intent, classify confirmation replies (yes / no / repeat,
in that order, by substring against the phrase sets), swallow any other
reply while awaiting confirmation, opportunistically capture name and
date, then run `simple_sequence`. -/
def on_user_message (gen : ConvState → String) (st0 : ConvState) (text : String) :
    ConvState × List Output :=
  let st := { st0 with awaiting_user_reply := false }
  let meta := str_lower (str_strip text)
  if phraseMatch meta end_set then
    ((end_call st).1,
     .utter "Thank you. I\x27ll end the call now." false :: (end_call st).2)
  else if st.awaiting_confirmation && phraseMatch meta yes_set then
    let st2 := { st with user_confirmed := true, awaiting_confirmation := false }
    ((end_call st2).1,
     .utter "Thank you. I\x27ll end the call now." false :: (end_call st2).2)
  else if st.awaiting_confirmation && phraseMatch meta no_set then
    ({ st with user_confirmed := false, awaiting_confirmation := false, summary_done := false },
     [.utter "No problem. Please tell me the corrections now." false])
  else if st.awaiting_confirmation && phraseMatch meta repeat_set then
    (st,
     [.utter (match st.call_summary with
              | some cs => cs.medical_report
              | none => "I\x27ll repeat the summary now.") false,
      .utter "Is this information correct?" true])
  else if st.confirmation_handled then ({ st with confirmation_handled := false }, [])
  else if st.awaiting_confirmation then (st, [])
  else
    simple_sequence gen (nameDateCapture st text)

/-! ### Session traces -/

inductive TraceItem where
  | inbound (text : String)
  | outbound (o : Output)
deriving DecidableEq

/-- Run the session over a list of inbound user messages, interleaving each
message with the outbound effects its handling produced. -/
def runTrace (gen : ConvState → String) : ConvState → List String → List TraceItem
  | _, [] => []
  | st, t :: ts =>
    TraceItem.inbound t ::
      (((on_user_message gen st t).2.map TraceItem.outbound)
        ++ runTrace gen (on_user_message gen st t).1 ts)

def greeting : String :=
  "Hello, this is your pre-visit intake assistant. I\x27m here to collect important medical information to help prepare for your appointment. Is now a good time to talk?"

/-- A full session trace: the opening greeting (spoken once, by
`_start_note_questions_if_needed` or the normal opening, and ending in a
question) followed by the event-driven exchange. -/
def sessionTrace (gen : ConvState → String) (st : ConvState) (msgs : List String) :
    List TraceItem :=
  TraceItem.outbound (.utter greeting true) :: runTrace gen st msgs

def countQuestions (outs : List Output) : Nat :=
  (outs.filter Output.isQuestion).length

/-- Scan a trace maintaining "a question is outstanding": a second
outbound question before an inbound reply falsifies the guard. -/
def guardAux : Bool → List TraceItem → Bool
  | _, [] => true
  | _, .inbound _ :: rest => guardAux false rest
  | pending, .outbound o :: rest =>
    if o.isQuestion then
      if pending then false else guardAux true rest
    else guardAux pending rest

def turnTakingGuard (tr : List TraceItem) : Bool := guardAux false tr

/-! ### Predicates naming the branch guards of `record_patient_info` -/

/-- A call reaches the final `else` chain of `record_patient_info`: the
`info_type` is none of the explicitly handled categories (a falsy
`subcategory` sends `hpi`/`ros` here too, mirroring `and subcategory`). -/
def reachesElse (info_type : String) (subcategory : Option String) : Prop :=
  info_type ≠ "name" ∧ info_type ≠ "appointment_date" ∧ info_type ≠ "chief_complaint" ∧
  info_type ≠ "infection" ∧
  ¬(info_type = "hpi" ∧ optTruthy subcategory = true) ∧
  ¬(info_type = "ros" ∧ optTruthy subcategory = true) ∧
  info_type ≠ "pertinent_negative" ∧ info_type ≠ "medications" ∧
  info_type ≠ "allergies" ∧ ¬(info_type = "pmh" ∨ info_type = "past_medical_history") ∧
  info_type ≠ "social" ∧ info_type ≠ "family" ∧ info_type ≠ "additional"

/-- A call lands in the `additional_notes` fallback: it reaches the final
`else` chain and matches none of the synonym substring rules there. -/
def fallbackRoute (info_type : String) (subcategory : Option String) : Prop :=
  reachesElse info_type subcategory ∧
  strContains (str_lower info_type) "pre-visit" = false ∧
  (strContains (str_lower info_type) "infection" || strContains (str_lower info_type) "fever" ||
   strContains (str_lower info_type) "post-op" || strContains (str_lower info_type) "postop") = false ∧
  strContains (str_lower info_type) "anesthesia" = false ∧
  (strContains (str_lower info_type) "sleep" || strContains (str_lower info_type) "apnea") = false ∧
  (strContains (str_lower info_type) "chest" && strContains (str_lower info_type) "pain") = false

instance (it : String) (sub : Option String) : Decidable (reachesElse it sub) := by
  unfold reachesElse; infer_instance

instance (it : String) (sub : Option String) : Decidable (fallbackRoute it sub) := by
  unfold fallbackRoute; infer_instance

/-! ### Concrete inputs used by witnesses and counterexamples -/

/-- A report generator instance (the machine's theorems hold for every
generator). -/
def gen0 : ConvState → String := fun _ => ""

/-- A session state in the awaiting-confirmation phase: a summary was
generated and delivered, standard (non-note) mode. -/
def st1 : ConvState :=
  { patient_info := emptyPatientInfo, doctor_note := "", note_questions := [],
    note_q_idx := 0, question_count := 0, last_question := none,
    call_summary := some { patient_info := emptyPatientInfo,
                           status := "summary_generated",
                           medical_report := "PRE-VISIT MEDICAL INTAKE REPORT" },
    ready_to_end := true, awaiting_confirmation := true, user_confirmed := false,
    summary_done := true, confirmation_handled := false, id_chief_done := true,
    awaiting_user_reply := false }

/-- A session state with the turn-taking flag raised (a question is
outstanding). -/
def stA : ConvState :=
  { st1 with awaiting_confirmation := false, summary_done := false,
             ready_to_end := false, call_summary := none,
             awaiting_user_reply := true }

/-- A note-driven state whose planned question list is exhausted and whose
record holds three structured fields. -/
def stB : ConvState :=
  { patient_info :=
      { emptyPatientInfo with chief_complaint := "knee pain",
                              medications := "aspirin", allergies := "none" },
    doctor_note := "knee pain", note_questions := [fallbackQuestion],
    note_q_idx := 1, question_count := 1, last_question := some fallbackQuestion,
    call_summary := none, ready_to_end := false, awaiting_confirmation := false,
    user_confirmed := false, summary_done := false, confirmation_handled := false,
    id_chief_done := true, awaiting_user_reply := false }

/-- The same exhausted note-driven state with an empty record. -/
def stC : ConvState :=
  { stB with patient_info := emptyPatientInfo }

/-- A dial target that never answers. -/
def constTimeout : Nat → DialOutcome := fun _ => DialOutcome.timeout

/-- A dial target that times out once and then rejects with a SIP busy
status. -/
def busyAfterOne : Nat → DialOutcome := fun i =>
  if i < 2 then DialOutcome.timeout else DialOutcome.rejected "486" "Busy Here"

/-- A two-entry scheduled-call map: one request mid-execution, one
cancelled long ago. -/
def callsW : List (String × ScheduledCall) :=
  [("id1", { phone_number := "+15550001", patient_name := "A", priority := "normal",
             scheduled_time := 0, status := "executing" }),
   ("id2", { phone_number := "+15550002", patient_name := "B", priority := "high",
             scheduled_time := -100, status := "cancelled" })]

/-! ## Theorems -/

/-! ### Substring-test correctness -/

theorem isPrefixChars_iff (n : List Char) : ∀ h, isPrefixChars n h = true ↔ n <+: h := by
  induction n with
  | nil => intro h; simp [isPrefixChars]
  | cons a as ih =>
    intro h
    cases h with
    | nil => simp [isPrefixChars]
    | cons b bs =>
      simp only [isPrefixChars, Bool.and_eq_true, decide_eq_true_eq, ih bs]
      constructor
      · rintro ⟨rfl, hp⟩; exact List.cons_prefix_cons.mpr ⟨rfl, hp⟩
      · intro hp; have := List.cons_prefix_cons.mp hp; exact ⟨this.1, this.2⟩

theorem isSubChars_iff (n : List Char) : ∀ h, isSubChars n h = true ↔ n <:+: h := by
  intro h
  induction h with
  | nil =>
    simp only [isSubChars, isPrefixChars_iff, List.infix_nil]
    constructor
    · intro hp; exact List.prefix_nil.mp hp
    · intro hp; simp [hp]
  | cons b bs ih =>
    simp only [isSubChars, Bool.or_eq_true, isPrefixChars_iff, ih]
    constructor
    · rintro (hp | hi)
      · exact hp.isInfix
      · exact hi.trans (List.infix_cons (List.infix_refl bs))
    · intro hi
      rcases List.infix_cons_iff.mp hi with hp | hi
      · exact Or.inl hp
      · exact Or.inr hi

theorem strContains_of_infix {hay needle : String}
    (h : needle.toList <:+: hay.toList) : strContains hay needle = true := by
  unfold strContains; exact (isSubChars_iff _ _).mpr h

/-- If the haystack splits as `pre ++ needle ++ suf`, the substring test
succeeds. -/
theorem strContains_of_parts (hay pre needle suf : String)
    (h : hay = pre ++ needle ++ suf) : strContains hay needle = true := by
  subst h
  apply strContains_of_infix
  refine ⟨pre.toList, suf.toList, ?_⟩
  show pre.toList ++ needle.toList ++ suf.toList = ((pre ++ needle) ++ suf).toList
  simp [String.toList, String.data_append]

/-! ### C2 / C8 — the dial loop -/

theorem dialRun_timeout_props (outcome : Nat → DialOutcome) (delay : Nat)
    (h : ∀ i, outcome i = DialOutcome.timeout) :
    ∀ r idx,
      countAttempts (dialRun outcome delay idx (r + 1)) = r + 1
      ∧ (dialRun outcome delay idx (r + 1)).filter isNoteEvent = [DialEvent.note "timeout"]
      ∧ DialEvent.connected ∉ dialRun outcome delay idx (r + 1)
      ∧ (dialRun outcome delay idx (r + 1)).filter isSleepEvent
          = List.replicate r (DialEvent.sleep delay)
      ∧ ∃ pre, dialRun outcome delay idx (r + 1)
          = pre ++ [DialEvent.note "timeout", DialEvent.shutdown] := by
  intro r
  induction r with
  | zero =>
    intro idx
    simp only [dialRun, h]
    refine ⟨rfl, rfl, by simp, rfl, [DialEvent.attempt idx], rfl⟩
  | succ m ih =>
    intro idx
    obtain ⟨hc, hn, hm, hs, pre, hp⟩ := ih (idx + 1)
    have hstep : dialRun outcome delay idx (m + 1 + 1)
        = DialEvent.attempt idx :: DialEvent.sleep delay ::
            dialRun outcome delay (idx + 1) (m + 1) := by
      simp [dialRun, h]
    refine ⟨?_, ?_, ?_, ?_, DialEvent.attempt idx :: DialEvent.sleep delay :: pre, ?_⟩
    · simp [hstep, countAttempts, isAttemptEvent] at *
      omega
    · simp [hstep, isNoteEvent, hn]
    · simp [hstep]; exact hm
    · simp [hstep, isSleepEvent, hs, List.replicate_succ]
    · simp [hstep, hp]

/-- Claim C2: with retry count `N ≥ 0` and a target every attempt to which
times out, the dial loop makes exactly `N + 1` attempts, sleeps the
configured delay between consecutive attempts (`N` sleeps), persists
exactly one no-answer note whose reason is `timeout`, writes it before
shutting down, and never reaches the connected continuation. -/
theorem c2_retry_exhaustion (n delay : Nat) (outcome : Nat → DialOutcome)
    (h : ∀ i, outcome i = DialOutcome.timeout) :
    countAttempts (entrypoint_dial outcome n delay) = n + 1
    ∧ (entrypoint_dial outcome n delay).filter isNoteEvent = [DialEvent.note "timeout"]
    ∧ DialEvent.connected ∉ entrypoint_dial outcome n delay
    ∧ (entrypoint_dial outcome n delay).filter isSleepEvent
        = List.replicate n (DialEvent.sleep delay)
    ∧ ∃ pre, entrypoint_dial outcome n delay
        = pre ++ [DialEvent.note "timeout", DialEvent.shutdown] := by
  have ht : total_attempts n = n + 1 := by simp [total_attempts]
  unfold entrypoint_dial
  rw [ht]
  exact dialRun_timeout_props outcome delay h n 1

theorem c2_retry_exhaustion_witness :
    (∀ i, constTimeout i = DialOutcome.timeout)
    ∧ countAttempts (entrypoint_dial constTimeout 2 30) = 3
    ∧ (entrypoint_dial constTimeout 2 30).filter isNoteEvent = [DialEvent.note "timeout"]
    ∧ DialEvent.connected ∉ entrypoint_dial constTimeout 2 30
    ∧ (entrypoint_dial constTimeout 2 30).filter isSleepEvent
        = List.replicate 2 (DialEvent.sleep 30) :=
  ⟨fun _ => rfl,
   (c2_retry_exhaustion 2 30 constTimeout (fun _ => rfl)).1,
   (c2_retry_exhaustion 2 30 constTimeout (fun _ => rfl)).2.1,
   (c2_retry_exhaustion 2 30 constTimeout (fun _ => rfl)).2.2.1,
   (c2_retry_exhaustion 2 30 constTimeout (fun _ => rfl)).2.2.2.1⟩

theorem dialRun_reject_props (outcome : Nat → DialOutcome) (delay : Nat) (c s : String) :
    ∀ j r idx, j < r →
      (∀ k, k < j → outcome (idx + k) = DialOutcome.timeout) →
      outcome (idx + j) = DialOutcome.rejected c s →
      countAttempts (dialRun outcome delay idx r) = j + 1
      ∧ (dialRun outcome delay idx r).filter isNoteEvent
          = [DialEvent.note ("SIP error " ++ c ++ " " ++ s)]
      ∧ DialEvent.connected ∉ dialRun outcome delay idx r
      ∧ ∃ pre, dialRun outcome delay idx r
          = pre ++ [DialEvent.note ("SIP error " ++ c ++ " " ++ s), DialEvent.shutdown] := by
  intro j
  induction j with
  | zero =>
    intro r idx hr _ hrej
    obtain ⟨m, rfl⟩ := Nat.exists_eq_add_of_lt hr
    simp only [Nat.add_comm 0 m] at *
    have : outcome idx = DialOutcome.rejected c s := by simpa using hrej
    simp only [dialRun, this]
    refine ⟨rfl, rfl, by simp, [DialEvent.attempt idx], rfl⟩
  | succ p ih =>
    intro r idx hr htos hrej
    obtain ⟨m, rfl⟩ := Nat.exists_eq_add_of_lt hr
    have h0 : outcome idx = DialOutcome.timeout := by
      simpa using htos 0 (Nat.succ_pos p)
    have hm : ¬(p + m + 1 = 0) := by omega
    have hstep : dialRun outcome delay idx (p + 1 + m + 1)
        = DialEvent.attempt idx :: DialEvent.sleep delay ::
            dialRun outcome delay (idx + 1) (p + m + 1) := by
      have : p + 1 + m = p + m + 1 := by omega
      rw [this]
      simp [dialRun, h0, hm]
    have htos2 : ∀ k, k < p → outcome (idx + 1 + k) = DialOutcome.timeout := by
      intro k hk
      have := htos (k + 1) (by omega)
      simpa [Nat.add_assoc, Nat.add_comm 1 k] using this
    have hrej2 : outcome (idx + 1 + p) = DialOutcome.rejected c s := by
      have : idx + 1 + p = idx + (p + 1) := by omega
      rw [this]; exact hrej
    obtain ⟨hc, hn, hmem, pre, hp⟩ := ih (p + m + 1) (idx + 1) (by omega) htos2 hrej2
    refine ⟨?_, ?_, ?_, DialEvent.attempt idx :: DialEvent.sleep delay :: pre, ?_⟩
    · simp [hstep, countAttempts, isAttemptEvent] at *
      omega
    · simp [hstep, isNoteEvent, hn]
    · simp [hstep]; exact hmem
    · simp [hstep, hp]

/-- Claim C8: if attempt `1 + j` is rejected by the telephony layer (after
only timeouts before it), the loop stops at that attempt no matter how many
retries were configured, persists exactly one no-answer note carrying the
SIP status code and text, writes it before shutting down, and never reaches
the connected continuation. -/
theorem c8_rejection_no_retry (n delay : Nat) (outcome : Nat → DialOutcome)
    (c s : String) (j : Nat) (hj : j < total_attempts n)
    (htos : ∀ k, k < j → outcome (1 + k) = DialOutcome.timeout)
    (hrej : outcome (1 + j) = DialOutcome.rejected c s) :
    countAttempts (entrypoint_dial outcome n delay) = j + 1
    ∧ (entrypoint_dial outcome n delay).filter isNoteEvent
        = [DialEvent.note ("SIP error " ++ c ++ " " ++ s)]
    ∧ DialEvent.connected ∉ entrypoint_dial outcome n delay
    ∧ ∃ pre, entrypoint_dial outcome n delay
        = pre ++ [DialEvent.note ("SIP error " ++ c ++ " " ++ s), DialEvent.shutdown] :=
  dialRun_reject_props outcome delay c s j (total_attempts n) 1 hj htos hrej

theorem c8_rejection_no_retry_witness :
    (∀ k, k < 1 → busyAfterOne (1 + k) = DialOutcome.timeout)
    ∧ busyAfterOne (1 + 1) = DialOutcome.rejected "486" "Busy Here"
    ∧ countAttempts (entrypoint_dial busyAfterOne 5 30) = 2
    ∧ (entrypoint_dial busyAfterOne 5 30).filter isNoteEvent
        = [DialEvent.note ("SIP error " ++ "486" ++ " " ++ "Busy Here")] :=
  ⟨by decide, by decide,
   (c8_rejection_no_retry 5 30 busyAfterOne "486" "Busy Here" 1 (by decide)
      (by decide) (by decide)).1,
   (c8_rejection_no_retry 5 30 busyAfterOne "486" "Busy Here" 1 (by decide)
      (by decide) (by decide)).2.1⟩

/-! ### C10 — cancelling and pruning scheduled calls -/

theorem prune_keeps_cancelled (calls : List (String × ScheduledCall)) (cutoff : Int) :
    ∀ p ∈ calls, p.2.status = "cancelled" → p ∈ prune_expired calls cutoff := by
  intro p hp hcanc
  apply List.mem_filter.mpr
  refine ⟨hp, ?_⟩
  simp [hcanc]

theorem prune_only_expired (calls : List (String × ScheduledCall)) (cutoff : Int) :
    ∀ p ∈ calls, p ∉ prune_expired calls cutoff →
      (p.2.status = "completed" ∨ p.2.status = "failed") ∧ p.2.scheduled_time < cutoff := by
  intro p hp hnot
  by_contra hkeep
  apply hnot
  apply List.mem_filter.mpr
  refine ⟨hp, ?_⟩
  simp only [Bool.not_eq_true', Bool.and_eq_false_iff, Bool.or_eq_false_iff,
             beq_eq_false_iff_ne, ne_eq, decide_eq_false_iff_not]
  by_cases h1 : p.2.status = "completed"
  · right; intro hlt; exact hkeep ⟨Or.inl h1, hlt⟩
  · by_cases h2 : p.2.status = "failed"
    · right; intro hlt; exact hkeep ⟨Or.inr h2, hlt⟩
    · left; exact ⟨h1, h2⟩

/-- Claim C10: cancelling succeeds exactly when the schedule id is in the
request map; on success that request's status becomes `cancelled` whatever
it was before (the map's keys are untouched); and the 24-hour retention
prune never removes a cancelled request — an entry is removed only when
its status is `completed` or `failed` and it is older than the cutoff. -/
theorem c10_cancel_and_prune (calls : List (String × ScheduledCall))
    (schedule_id : String) (cutoff : Int) :
    ((cancel_scheduled_call calls schedule_id).2 = true ↔ schedule_id ∈ calls.map Prod.fst)
    ∧ (∀ p ∈ (cancel_scheduled_call calls schedule_id).1,
        p.1 = schedule_id → p.2.status = "cancelled")
    ∧ (cancel_scheduled_call calls schedule_id).1.map Prod.fst = calls.map Prod.fst
    ∧ (∀ p ∈ calls, p.2.status = "cancelled" → p ∈ prune_expired calls cutoff)
    ∧ (∀ p ∈ calls, p ∉ prune_expired calls cutoff →
        (p.2.status = "completed" ∨ p.2.status = "failed") ∧ p.2.scheduled_time < cutoff) := by
  by_cases hc : calls.any (fun p => p.1 == schedule_id)
  case pos =>
    have hform : cancel_scheduled_call calls schedule_id =
        (calls.map (fun p => if p.1 = schedule_id then
            (p.1, { p.2 with status := "cancelled" }) else p), true) := by
      unfold cancel_scheduled_call; rw [if_pos hc]
    simp only [List.any_eq_true, beq_iff_eq] at hc
    obtain ⟨w, hw, hwe⟩ := hc
    refine ⟨?_, ?_, ?_, ?_, ?_⟩
    · rw [hform]
      simp only [List.mem_map]
      exact ⟨fun _ => ⟨w, hw, hwe⟩, fun _ => by trivial⟩
    · intro p hp hpe
      rw [hform] at hp
      simp only [List.mem_map] at hp
      obtain ⟨q, _, rfl⟩ := hp
      by_cases hq : q.1 = schedule_id
      · simp [hq]
      · rw [if_neg hq] at hpe ⊢
        exact absurd hpe hq
    · rw [hform]
      simp only [List.map_map]
      apply List.map_congr_left
      intro p _
      by_cases hq : p.1 = schedule_id <;> simp [hq]
    · exact prune_keeps_cancelled calls cutoff
    · exact prune_only_expired calls cutoff
  case neg =>
    have hform : cancel_scheduled_call calls schedule_id = (calls, false) := by
      unfold cancel_scheduled_call; rw [if_neg hc]
    simp only [List.any_eq_true, beq_iff_eq, not_exists, not_and] at hc
    refine ⟨?_, ?_, ?_, ?_, ?_⟩
    · rw [hform]
      simp only [List.mem_map]
      apply iff_of_false
      · simp
      · rintro ⟨p, hp, hpe⟩
        exact hc p hp hpe
    · intro p hp hpe
      rw [hform] at hp
      exact absurd hpe (hc p hp)
    · rw [hform]
    · exact prune_keeps_cancelled calls cutoff
    · exact prune_only_expired calls cutoff

theorem c10_cancel_and_prune_witness :
    ("id1" ∈ callsW.map Prod.fst)
    ∧ (cancel_scheduled_call callsW "id1").2 = true
    ∧ (∀ p ∈ (cancel_scheduled_call callsW "id1").1,
        p.1 = "id1" → p.2.status = "cancelled")
    ∧ (∀ p ∈ callsW, p.2.status = "cancelled" → p ∈ prune_expired callsW 0) :=
  ⟨by decide,
   (c10_cancel_and_prune callsW "id1" 0).1.mpr (by decide),
   (c10_cancel_and_prune callsW "id1" 0).2.1,
   (c10_cancel_and_prune callsW "id1" 0).2.2.2.1⟩

/-! ### C6 — the note-to-question planner -/

theorem dedupTake_length : ∀ (l : List String) (k : Nat) (seen : List String),
    (dedupTake k seen l).length ≤ k := by
  intro l
  induction l with
  | nil => intro k seen; cases k <;> simp [dedupTake]
  | cons q rest ih =>
    intro k seen
    cases k with
    | zero => simp [dedupTake]
    | succ m =>
      by_cases hq : str_lower q ∈ seen
      · simpa [dedupTake, hq] using ih (m + 1) seen
      · simp only [dedupTake, hq, if_neg, List.length_cons]
        exact Nat.succ_le_succ (ih m _)

theorem dedupTake_subset : ∀ (l : List String) (k : Nat) (seen : List String) (q : String),
    q ∈ dedupTake k seen l → q ∈ l := by
  intro l
  induction l with
  | nil => intro k seen q hq; cases k <;> simp [dedupTake] at hq
  | cons a rest ih =>
    intro k seen q hq
    cases k with
    | zero => simp [dedupTake] at hq
    | succ m =>
      by_cases ha : str_lower a ∈ seen
      · simp only [dedupTake, ha, if_true] at hq
        exact List.mem_cons_of_mem a (ih (m + 1) seen q hq)
      · simp only [dedupTake, ha, if_false] at hq
        rcases List.mem_cons.mp hq with rfl | hq2
        · exact List.mem_cons_self q rest
        · exact List.mem_cons_of_mem a (ih m _ q hq2)

theorem dedupTake_lower_not_seen :
    ∀ (l : List String) (k : Nat) (seen : List String) (q : String),
      q ∈ dedupTake k seen l → str_lower q ∉ seen := by
  intro l
  induction l with
  | nil => intro k seen q hq; cases k <;> simp [dedupTake] at hq
  | cons a rest ih =>
    intro k seen q hq
    cases k with
    | zero => simp [dedupTake] at hq
    | succ m =>
      by_cases ha : str_lower a ∈ seen
      · simp only [dedupTake, ha, if_true] at hq
        exact ih (m + 1) seen q hq
      · simp only [dedupTake, ha, if_false] at hq
        rcases List.mem_cons.mp hq with rfl | hq2
        · exact ha
        · intro hs
          exact ih m _ q hq2 (List.mem_cons_of_mem _ hs)

theorem dedupTake_pairwise : ∀ (l : List String) (k : Nat) (seen : List String),
    (dedupTake k seen l).Pairwise (fun a b => str_lower a ≠ str_lower b) := by
  intro l
  induction l with
  | nil => intro k seen; cases k <;> simp [dedupTake]
  | cons a rest ih =>
    intro k seen
    cases k with
    | zero => simp [dedupTake]
    | succ m =>
      by_cases ha : str_lower a ∈ seen
      · simpa [dedupTake, ha] using ih (m + 1) seen
      · simp only [dedupTake, ha, if_false]
        refine List.Pairwise.cons ?_ (ih m _)
        intro b hb heq
        have := dedupTake_lower_not_seen rest m _ b hb
        exact this (by rw [← heq]; exact List.mem_cons_self _ _)

theorem ruleQuestion_mem (p : String) : ruleQuestion p ∈ fixedQuestions := by
  unfold ruleQuestion fixedQuestions
  dsimp only
  split_ifs <;> simp

theorem matchesNoRule_fallback (p : String) (h : matchesNoRule p = true) :
    ruleQuestion p = fallbackQuestion := by
  unfold matchesNoRule at h
  simp only [Bool.not_eq_true', Bool.or_eq_false_iff] at h
  obtain ⟨⟨⟨⟨⟨⟨⟨⟨⟨⟨⟨⟨⟨⟨⟨⟨⟨⟨h1, h2⟩, h3⟩, h4⟩, h5⟩, h6⟩, h7⟩, h8⟩, h9⟩, h10⟩,
    h11⟩, h12⟩, h13⟩, h14⟩, h15⟩, h16⟩, h17⟩, h18⟩, h19⟩ := h
  unfold ruleQuestion
  dsimp only
  simp [h1, h2, h3, h4, h5, h6, h7, h8, h9, h10, h11, h12, h13, h14, h15, h16, h17, h18, h19]

/-- Claim C6: the planner is a pure function of the note text (two calls on
equal text agree), its output has at most 12 questions with no
case-insensitive duplicates, every emitted question is one of the nine
fixed rule-rendered strings, and a clause matching no keyword rule renders
the generic fallback question. -/
theorem c6_planner_properties (note : String) :
    (∀ note2, note2 = note → _questions_from_note note2 = _questions_from_note note)
    ∧ (_questions_from_note note).length ≤ 12
    ∧ (_questions_from_note note).Pairwise (fun a b => str_lower a ≠ str_lower b)
    ∧ (∀ q ∈ _questions_from_note note, q ∈ fixedQuestions)
    ∧ (∀ p, matchesNoRule p = true → ruleQuestion p = fallbackQuestion) := by
  refine ⟨fun note2 he => by rw [he], ?_, ?_, ?_, fun p hp => matchesNoRule_fallback p hp⟩
  · unfold _questions_from_note
    dsimp only
    split_ifs
    · simp
    · exact dedupTake_length _ 12 []
  · unfold _questions_from_note
    dsimp only
    split_ifs
    · simp
    · exact dedupTake_pairwise _ 12 []
  · intro q hq
    unfold _questions_from_note at hq
    dsimp only at hq
    split_ifs at hq
    · simp at hq
    · have := dedupTake_subset _ 12 [] q hq
      simp only [List.mem_map] at this
      obtain ⟨p, _, rfl⟩ := this
      exact ruleQuestion_mem p

theorem c6_planner_properties_witness :
    _questions_from_note "chest pain; anesthesia" =
      ["Do you get chest pain or shortness of breath with exertion?",
       "Have you had any problems with anesthesia in the past?"]
    ∧ "Do you get chest pain or shortness of breath with exertion?"
        ∈ _questions_from_note "chest pain; anesthesia"
    ∧ "Do you get chest pain or shortness of breath with exertion?" ∈ fixedQuestions
    ∧ (_questions_from_note "chest pain; anesthesia").length ≤ 12 :=
  ⟨by decide, by decide,
   (c6_planner_properties "chest pain; anesthesia").2.2.2.1 _ (by decide),
   (c6_planner_properties "chest pain; anesthesia").2.1⟩

/-! ### C3 / C5 — the recording step -/

theorem record_hpi_status (pi : PatientInfo) (v sub : String) :
    (record_hpi pi v sub).2 = RecordStatus.recorded := by
  simp only [record_hpi]; split_ifs <;> rfl

theorem record_ros_status (pi : PatientInfo) (v sub : String) :
    (record_ros pi v sub).2 = RecordStatus.recorded := by
  simp only [record_ros]; split_ifs <;> rfl

theorem record_unknown_status (pi : PatientInfo) (it v : String)
    (sub : Option String) : (record_unknown pi it v sub).2 ≠ RecordStatus.error := by
  simp only [record_unknown]; split_ifs <;> simp

/-- Walking the conditional chain branch by branch: every branch except
`pertinent_negative` returns the `info_recorded` or `ignored` status, never
the error status. -/
theorem record_status_ne_error (pi : PatientInfo) (it v : String)
    (sub : Option String) (hpn : it ≠ "pertinent_negative") :
    (record_patient_info pi it v sub).2 ≠ RecordStatus.error := by
  rw [record_patient_info.eq_def]
  by_cases e1 : it = "name"
  · rw [if_pos e1]; exact fun h => RecordStatus.noConfusion h
  rw [if_neg e1]
  by_cases e2 : it = "appointment_date"
  · rw [if_pos e2]; exact fun h => RecordStatus.noConfusion h
  rw [if_neg e2]
  by_cases e3 : it = "chief_complaint"
  · rw [if_pos e3]; exact fun h => RecordStatus.noConfusion h
  rw [if_neg e3]
  by_cases e4 : it = "infection"
  · rw [if_pos e4]; exact fun h => RecordStatus.noConfusion h
  rw [if_neg e4]
  by_cases e5 : it = "hpi" ∧ optTruthy sub = true
  · rw [if_pos e5, record_hpi_status]; exact fun h => RecordStatus.noConfusion h
  rw [if_neg e5]
  by_cases e6 : it = "ros" ∧ optTruthy sub = true
  · rw [if_pos e6, record_ros_status]; exact fun h => RecordStatus.noConfusion h
  rw [if_neg e6]
  by_cases e7 : it = "pertinent_negative"
  · exact absurd e7 hpn
  rw [if_neg e7]
  by_cases e8 : it = "medications"
  · rw [if_pos e8]; exact fun h => RecordStatus.noConfusion h
  rw [if_neg e8]
  by_cases e9 : it = "allergies"
  · rw [if_pos e9]; exact fun h => RecordStatus.noConfusion h
  rw [if_neg e9]
  by_cases e10 : it = "pmh" ∨ it = "past_medical_history"
  · rw [if_pos e10]; exact fun h => RecordStatus.noConfusion h
  rw [if_neg e10]
  by_cases e11 : it = "social"
  · rw [if_pos e11]; exact fun h => RecordStatus.noConfusion h
  rw [if_neg e11]
  by_cases e12 : it = "family"
  · rw [if_pos e12]; exact fun h => RecordStatus.noConfusion h
  rw [if_neg e12]
  by_cases e13 : it = "additional"
  · rw [if_pos e13]; exact fun h => RecordStatus.noConfusion h
  rw [if_neg e13]
  exact record_unknown_status _ _ _ _

/-- On the fallback route, `record_patient_info` appends the tagged entry
to `additional_notes` and touches nothing else. -/
theorem record_fallback (pi : PatientInfo) (info_type value : String)
    (sub : Option String) (h : fallbackRoute info_type sub) :
    record_patient_info pi info_type value sub =
      ({ pi with additional_notes :=
          pi.additional_notes ++ (if pi.additional_notes ≠ "" then "\n" else "")
          ++ info_type ++ (if optTruthy sub then " (" ++ sub.getD "" ++ ")" else "")
          ++ ": " ++ value }, RecordStatus.recorded) := by
  obtain ⟨⟨h1, h2, h3, h4, h5, h6, h7, h8, h9, h10, h11, h12, h13⟩,
    hp1, hp2, hp3, hp4, hp5⟩ := h
  unfold record_patient_info
  simp only [h1, h2, h3, h4, h5, h6, h7, h8, h9, h10, h11, h12, h13,
             if_false, Bool.false_eq_true]
  unfold record_unknown
  simp only [hp1, hp2, hp3, hp4, hp5, if_false, Bool.false_eq_true]

/-- Claim C3 counterexample: a `ros` call with an unrecognized non-dyspnea
subcategory records nothing at all — the record is returned unchanged with
status `info_recorded`, so the value is silently dropped. -/
theorem c3_drop_counterexample :
    record_patient_info emptyPatientInfo "ros" "itchy rash" (some "skin")
      = (emptyPatientInfo, RecordStatus.recorded) := by decide

/-- Claim C3 (amended): the recording step is total and never raises (the
`except` turns the only possible exception — appending a pertinent
negative after the negatives list was stringly overwritten — into an error
status); a call whose category matches no known branch and no synonym rule
appends the value to `additional_notes`, tagged with the original
category, never overwriting; but not every call lands the value somewhere:
a `ros` call with an unknown non-dyspnea subcategory is silently dropped,
and an `info_type` containing `pre-visit` is deliberately ignored. -/
theorem c3_recording_amended (pi : PatientInfo) (info_type value : String)
    (sub : Option String) :
    ((record_patient_info pi info_type value sub).2 = RecordStatus.error →
      info_type = "pertinent_negative")
    ∧ (fallbackRoute info_type sub →
        record_patient_info pi info_type value sub =
          ({ pi with additional_notes :=
              pi.additional_notes ++ (if pi.additional_notes ≠ "" then "\n" else "")
              ++ info_type ++ (if optTruthy sub then " (" ++ sub.getD "" ++ ")" else "")
              ++ ": " ++ value }, RecordStatus.recorded))
    ∧ (info_type = "ros" → optTruthy sub = true → sub.getD "" ∉ rosStrKeys →
        sub.getD "" ≠ "pertinent_negatives" → str_lower (sub.getD "") ≠ "dyspnea" →
        record_patient_info pi info_type value sub = (pi, RecordStatus.recorded))
    ∧ (reachesElse info_type sub → strContains (str_lower info_type) "pre-visit" = true →
        record_patient_info pi info_type value sub = (pi, RecordStatus.ignored)) := by
  refine ⟨?_, fun h => record_fallback pi info_type value sub h, ?_, ?_⟩
  · intro herr
    by_cases hpn : info_type = "pertinent_negative"
    · exact hpn
    · exact absurd herr (record_status_ne_error pi info_type value sub hpn)
  · intro hit hsub hmem hpn hdys
    subst hit
    have n1 : ¬(("ros" : String) = "name") := by decide
    have n2 : ¬(("ros" : String) = "appointment_date") := by decide
    have n3 : ¬(("ros" : String) = "chief_complaint") := by decide
    have n4 : ¬(("ros" : String) = "infection") := by decide
    have n5 : ¬(("ros" : String) = "hpi") := by decide
    unfold record_patient_info
    simp only [n1, n2, n3, n4, n5, hsub, if_false, if_true,
               false_and, and_true, eq_self_iff_true, true_and, Bool.false_eq_true]
    unfold record_ros
    simp only [hmem, hpn, hdys, if_false, Bool.false_eq_true]
  · intro hre hpre
    obtain ⟨h1, h2, h3, h4, h5, h6, h7, h8, h9, h10, h11, h12, h13⟩ := hre
    unfold record_patient_info
    simp only [h1, h2, h3, h4, h5, h6, h7, h8, h9, h10, h11, h12, h13,
               if_false, Bool.false_eq_true]
    unfold record_unknown
    simp only [hpre, eq_self_iff_true, if_true]

theorem c3_recording_amended_witness :
    fallbackRoute "insurance" none
    ∧ record_patient_info emptyPatientInfo "insurance" "Acme PPO" none =
        ({ emptyPatientInfo with additional_notes := "insurance: Acme PPO" },
         RecordStatus.recorded) := by
  refine ⟨by decide, ?_⟩
  have h := (c3_recording_amended emptyPatientInfo "insurance" "Acme PPO" none).2.1
    (by decide)
  simpa using h

/-- Claim C5 counterexample: an `info_type` outside the known set that
matches the `fever` synonym rule is routed to the constitutional
review-of-systems slot — `additional_notes` stays empty and another field
changes, contrary to the claim. -/
theorem c5_synonym_counterexample :
    (record_patient_info emptyPatientInfo "fever history" "had fever last week"
      none).1.review_of_systems.constitutional = "had fever last week"
    ∧ (record_patient_info emptyPatientInfo "fever history" "had fever last week"
        none).1.additional_notes = "" := by decide

/-- Claim C5 (amended): for a `record(info_type, value)` call without
subcategory whose `info_type` is outside the known category set and matches
none of the synonym substring rules (pre-visit, infection/fever/post-op,
anesthesia, sleep/apnea, chest+pain), `additional_notes` afterwards
contains both the original `info_type` and the `value`, appended after the
previous notes, and every other field is unchanged. -/
theorem c5_fallback_frame_amended (pi : PatientInfo) (info_type value : String)
    (h : fallbackRoute info_type none) :
    (record_patient_info pi info_type value none).1 =
      { pi with additional_notes :=
          pi.additional_notes ++ (if pi.additional_notes ≠ "" then "\n" else "")
          ++ info_type ++ ": " ++ value }
    ∧ strContains (record_patient_info pi info_type value none).1.additional_notes
        info_type = true
    ∧ strContains (record_patient_info pi info_type value none).1.additional_notes
        value = true := by
  have he := record_fallback pi info_type value none h
  have he1 : (record_patient_info pi info_type value none).1 =
      { pi with additional_notes :=
          pi.additional_notes ++ (if pi.additional_notes ≠ "" then "\n" else "")
          ++ info_type ++ ": " ++ value } := by
    rw [he]
    simp [optTruthy, String.append_assoc]
  refine ⟨he1, ?_, ?_⟩
  · rw [he1]
    apply strContains_of_parts _
      (pi.additional_notes ++ (if pi.additional_notes ≠ "" then "\n" else ""))
      info_type (": " ++ value)
    simp [String.append_assoc]
  · rw [he1]
    apply strContains_of_parts _
      (pi.additional_notes ++ (if pi.additional_notes ≠ "" then "\n" else "")
        ++ info_type ++ ": ") value ""
    simp [String.append_assoc]

theorem c5_fallback_frame_amended_witness :
    fallbackRoute "insurance" none
    ∧ (record_patient_info emptyPatientInfo "insurance" "Acme PPO" none).1 =
        { emptyPatientInfo with additional_notes := "insurance: Acme PPO" }
    ∧ strContains (record_patient_info emptyPatientInfo "insurance" "Acme PPO"
        none).1.additional_notes "insurance" = true :=
  ⟨by decide,
   by simpa using (c5_fallback_frame_amended emptyPatientInfo "insurance" "Acme PPO"
     (by decide)).1,
   (c5_fallback_frame_amended emptyPatientInfo "insurance" "Acme PPO" (by decide)).2.1⟩

/-! ### Conversation machine lemmas -/

theorem end_call_state (st : ConvState) : (end_call st).1 = st := by
  unfold end_call; split_ifs <;> rfl

theorem countQuestions_nil : countQuestions [] = 0 := rfl

theorem countQuestions_cons (o : Output) (l : List Output) :
    countQuestions (o :: l) = (if o.isQuestion then 1 else 0) + countQuestions l := by
  unfold countQuestions
  by_cases h : o.isQuestion <;> simp only [h, List.filter_cons, if_true, if_false,
    Bool.false_eq_true, List.length_cons] <;> omega

theorem countQuestions_end_call (st : ConvState) :
    countQuestions (end_call st).2 = 0 := by
  unfold end_call; split_ifs <;> rfl

theorem countQuestions_summarize (gen : ConvState → String) (st : ConvState) :
    countQuestions (summarize_and_confirm gen st).2 ≤ 1 := by
  unfold summarize_and_confirm
  split_ifs <;> simp [countQuestions, Output.isQuestion, List.filter]

theorem countQuestions_simple_sequence (gen : ConvState → String) (st : ConvState) :
    countQuestions (simple_sequence gen st).2 ≤ 1 := by
  unfold simple_sequence
  split_ifs <;>
    first
      | exact countQuestions_summarize gen st
      | simp [countQuestions, Output.isQuestion, List.filter]

theorem countQuestions_on_user_message (gen : ConvState → String) (st : ConvState)
    (t : String) : countQuestions (on_user_message gen st t).2 ≤ 1 := by
  simp only [on_user_message]
  split_ifs <;>
    first
      | (rw [countQuestions_cons, countQuestions_end_call]
         simp [Output.isQuestion])
      | exact countQuestions_simple_sequence gen _
      | (rcases st.call_summary with _ | cs <;>
           simp [countQuestions, Output.isQuestion, List.filter])

/-- The turn-taking guard at the top of `simple_sequence`: while a question
is outstanding, the step does nothing. -/
theorem simple_sequence_noop (gen : ConvState → String) (st : ConvState)
    (h : st.awaiting_user_reply = true) : simple_sequence gen st = (st, []) := by
  unfold simple_sequence
  rw [if_pos h]

/-- Every branch of `simple_sequence` either raises the turn-taking flag or
emits nothing and leaves the state alone. -/
theorem simple_sequence_flag (gen : ConvState → String) (st : ConvState) :
    (simple_sequence gen st).1.awaiting_user_reply = true
    ∨ simple_sequence gen st = (st, []) := by
  unfold simple_sequence
  split_ifs <;> first | (right; rfl) | (left; rfl)

theorem guardAux_zero : ∀ (outs : List Output), countQuestions outs = 0 →
    ∀ (b : Bool) (rest : List TraceItem),
      guardAux b (outs.map TraceItem.outbound ++ rest) = guardAux b rest := by
  intro outs
  induction outs with
  | nil => intro _ b rest; rfl
  | cons o l ih =>
    intro h b rest
    have ho : o.isQuestion = false := by
      rw [countQuestions_cons] at h
      by_cases hq : o.isQuestion
      · simp [hq] at h
      · simpa using hq
    have hl : countQuestions l = 0 := by
      rw [countQuestions_cons, ho] at h
      simpa using h
    simp only [List.map_cons, List.cons_append, guardAux, ho, Bool.false_eq_true,
               if_false]
    exact ih hl b rest

theorem guardAux_block : ∀ (outs : List Output), countQuestions outs ≤ 1 →
    ∀ (rest : List TraceItem), (∀ b, guardAux b rest = true) →
      guardAux false (outs.map TraceItem.outbound ++ rest) = true := by
  intro outs
  induction outs with
  | nil => intro _ rest hr; exact hr false
  | cons o l ih =>
    intro h rest hr
    by_cases ho : o.isQuestion
    · have hl : countQuestions l = 0 := by
        rw [countQuestions_cons, ho] at h
        simpa using h
      simp only [List.map_cons, List.cons_append, guardAux, ho, if_true,
                 Bool.false_eq_true, if_false, List.append_eq]
      rw [guardAux_zero l hl true rest]
      exact hr true
    · have hl : countQuestions l ≤ 1 := by
        rw [countQuestions_cons] at h
        simp only [ho, if_false] at h
        omega
      simp only [List.map_cons, List.cons_append, guardAux, ho, Bool.false_eq_true,
                 if_false]
      exact ih hl rest hr

theorem runTrace_guard (gen : ConvState → String) :
    ∀ (msgs : List String) (st : ConvState) (b : Bool),
      guardAux b (runTrace gen st msgs) = true := by
  intro msgs
  induction msgs with
  | nil => intro st b; rfl
  | cons t ts ih =>
    intro st b
    show guardAux b (TraceItem.inbound t ::
      (((on_user_message gen st t).2.map TraceItem.outbound)
        ++ runTrace gen (on_user_message gen st t).1 ts)) = true
    rw [show ∀ l, guardAux b (TraceItem.inbound t :: l) = guardAux false l from
      fun l => rfl]
    exact guardAux_block _ (countQuestions_on_user_message gen st t) _
      (fun b2 => ih _ b2)

/-! ### C1 — the turn-taking guard -/

/-- Claim C1 counterexample: while awaiting confirmation, a `repeat` reply
re-delivers the summary and re-asks the confirmation question — an
outbound question — yet leaves the awaiting-reply flag false, so the flag
is not set after every emitted question. -/
theorem c1_flag_counterexample :
    (∃ o ∈ (on_user_message gen0 st1 "repeat").2, o.isQuestion = true)
    ∧ (on_user_message gen0 st1 "repeat").1.awaiting_user_reply = false := by
  constructor
  · exact ⟨Output.utter "Is this information correct?" true, by decide, rfl⟩
  · decide

/-- Claim C1 (amended): in every sequentialized session trace no two
outbound questions are emitted without an intervening inbound reply, and
while the awaiting-reply flag is true any trigger of the question-asking
step (`simple_sequence`) is a no-op; the flag is raised by every
question-emitting branch of the question-asking step and cleared only when
an inbound reply is processed — but the greeting and the confirmation
re-prompt spoken on a `repeat` reply are emitted outside that step and do
not set the flag. -/
theorem c1_turn_taking (gen : ConvState → String) (st : ConvState)
    (msgs : List String) :
    turnTakingGuard (sessionTrace gen st msgs) = true
    ∧ (st.awaiting_user_reply = true → simple_sequence gen st = (st, []))
    ∧ ((∃ o ∈ (simple_sequence gen st).2, o.isQuestion = true) →
        (simple_sequence gen st).1.awaiting_user_reply = true) := by
  refine ⟨?_, fun h => simple_sequence_noop gen st h, ?_⟩
  · show guardAux false (TraceItem.outbound (.utter greeting true) ::
      runTrace gen st msgs) = true
    rw [show ∀ l, guardAux false (TraceItem.outbound (Output.utter greeting true) :: l)
          = guardAux true l from fun l => rfl]
    exact runTrace_guard gen msgs st true
  · intro hex
    rcases simple_sequence_flag gen st with h | h
    · exact h
    · rw [h] at hex
      obtain ⟨o, ho, _⟩ := hex
      simp at ho

theorem c1_turn_taking_witness :
    stA.awaiting_user_reply = true
    ∧ turnTakingGuard (sessionTrace gen0 stA ["my knee hurts", "yes"]) = true
    ∧ simple_sequence gen0 stA = (stA, []) :=
  ⟨rfl,
   (c1_turn_taking gen0 stA ["my knee hurts", "yes"]).1,
   (c1_turn_taking gen0 stA ["my knee hurts", "yes"]).2.1 rfl⟩

/-! ### C4 — the confirmation loop -/

/-- Claim C4: from an awaiting-confirmation state with a stored summary
(standard mode, ready to end), a "yes" reply marks the summary confirmed,
clears the awaiting-confirmation flag and runs `end_call`, which persists
the completed final report and hangs up; a "no" reply clears both the
awaiting-confirmation and summary-delivered flags and persists nothing; a
"repeat" reply re-delivers exactly the stored summary report text followed
by the confirmation question, leaving the awaiting-confirmation flag, the
summary-delivered flag and the stored summary unchanged. -/
theorem c4_confirmation_classification (gen : ConvState → String) (st : ConvState)
    (cs : CallSummary)
    (hconf : st.awaiting_confirmation = true) (hcs : st.call_summary = some cs)
    (hsd : st.summary_done = true) (hdn : st.doctor_note = "")
    (hrte : st.ready_to_end = true) :
    ((on_user_message gen st "yes").1.user_confirmed = true
     ∧ (on_user_message gen st "yes").1.awaiting_confirmation = false
     ∧ Output.persistReport "call_ended" "completed" ∈ (on_user_message gen st "yes").2
     ∧ Output.hangup ∈ (on_user_message gen st "yes").2)
    ∧ ((on_user_message gen st "no").1.awaiting_confirmation = false
       ∧ (on_user_message gen st "no").1.summary_done = false
       ∧ ∀ s d, Output.persistReport s d ∉ (on_user_message gen st "no").2)
    ∧ ((on_user_message gen st "repeat").2
         = [Output.utter cs.medical_report false,
            Output.utter "Is this information correct?" true]
       ∧ (on_user_message gen st "repeat").1.awaiting_confirmation = true
       ∧ (on_user_message gen st "repeat").1.summary_done = true
       ∧ (on_user_message gen st "repeat").1.call_summary = some cs) := by
  have hy1 : phraseMatch (str_lower (str_strip "yes")) end_set = false := by decide
  have hy2 : phraseMatch (str_lower (str_strip "yes")) yes_set = true := by decide
  have hn1 : phraseMatch (str_lower (str_strip "no")) end_set = false := by decide
  have hn2 : phraseMatch (str_lower (str_strip "no")) yes_set = false := by decide
  have hn3 : phraseMatch (str_lower (str_strip "no")) no_set = true := by decide
  have hr1 : phraseMatch (str_lower (str_strip "repeat")) end_set = false := by decide
  have hr2 : phraseMatch (str_lower (str_strip "repeat")) yes_set = false := by decide
  have hr3 : phraseMatch (str_lower (str_strip "repeat")) no_set = false := by decide
  have hr4 : phraseMatch (str_lower (str_strip "repeat")) repeat_set = true := by decide
  obtain ⟨pi, dn, nq, idx, qc, lq, csf, rte, ac, uc, sd, chd, icd, aur⟩ := st
  simp only at hconf hcs hsd hdn hrte
  subst hconf hcs hsd hdn hrte
  refine ⟨⟨?_, ?_, ?_, ?_⟩, ⟨?_, ?_, ?_⟩, ⟨?_, ?_, ?_, ?_⟩⟩ <;>
    simp [on_user_message, end_call, ConvState.note_mode, _count_recorded_items,
          hy1, hy2, hn1, hn2, hn3, hr1, hr2, hr3, hr4]

theorem c4_confirmation_classification_witness :
    st1.awaiting_confirmation = true
    ∧ st1.summary_done = true
    ∧ Output.hangup ∈ (on_user_message gen0 st1 "yes").2
    ∧ (on_user_message gen0 st1 "no").1.summary_done = false
    ∧ (on_user_message gen0 st1 "repeat").2
        = [Output.utter "PRE-VISIT MEDICAL INTAKE REPORT" false,
           Output.utter "Is this information correct?" true] :=
  ⟨rfl, rfl,
   (c4_confirmation_classification gen0 st1 _ rfl rfl rfl rfl rfl).1.2.2.2,
   (c4_confirmation_classification gen0 st1 _ rfl rfl rfl rfl rfl).2.1.2.1,
   (c4_confirmation_classification gen0 st1 _ rfl rfl rfl rfl rfl).2.2.1⟩

/-! ### C7 — note-driven exhaustion -/

/-- Claim C7: in note-driven mode with the planned question list exhausted
(chief complaint already prompted, no question outstanding, summary not yet
delivered), the step moves to the confirmation phase exactly when at least
3 structured fields are recorded — it delivers the note-driven summary and
asks the confirmation question; with fewer than 3 it instead asks exactly
one open-ended catch-all question and does not enter confirmation. -/
theorem c7_note_exhaustion (gen : ConvState → String) (st : ConvState)
    (haur : st.awaiting_user_reply = false) (hicd : st.id_chief_done = true)
    (hdn : st.doctor_note ≠ "") (hnq : st.note_questions ≠ [])
    (hidx : st.note_questions.length ≤ st.note_q_idx)
    (huc : st.user_confirmed = false) (hsd : st.summary_done = false)
    (hac : st.awaiting_confirmation = false) :
    (3 ≤ _count_recorded_items st.patient_info →
       (simple_sequence gen st).1.awaiting_confirmation = true
       ∧ (simple_sequence gen st).2
           = [Output.utter (notePatientSummary st.patient_info) false,
              Output.utter "Is this information correct?" true])
    ∧ (_count_recorded_items st.patient_info < 3 →
       (simple_sequence gen st).1.awaiting_confirmation = false
       ∧ (simple_sequence gen st).2
           = [Output.utter "Before I summarize, is there anything else important you want your provider to know?" true]) := by
  have hnm : st.note_mode = true := by
    unfold ConvState.note_mode
    rw [if_neg hdn]
  have hie : st.note_questions.isEmpty = false := by
    cases hq : st.note_questions with
    | nil => exact absurd hq hnq
    | cons a l => rfl
  have hlt : ¬(st.note_q_idx < st.note_questions.length) := by omega
  constructor
  · intro h3
    unfold simple_sequence
    rw [if_neg (by rw [haur]; exact Bool.false_ne_true), if_neg (by simp [hicd]),
        if_pos (by simp [hnm, hie]), if_neg hlt, if_pos h3]
    unfold summarize_and_confirm
    rw [if_neg (by rw [huc]; exact Bool.false_ne_true),
        if_neg (by simp [hsd]), if_neg (by rw [hsd]; exact Bool.false_ne_true),
        if_pos hdn]
    exact ⟨rfl, rfl⟩
  · intro h3
    unfold simple_sequence
    rw [if_neg (by rw [haur]; exact Bool.false_ne_true), if_neg (by simp [hicd]),
        if_pos (by simp [hnm, hie]), if_neg hlt, if_neg (by omega)]
    exact ⟨hac, rfl⟩

theorem c7_note_exhaustion_witness :
    3 ≤ _count_recorded_items stB.patient_info
    ∧ (simple_sequence gen0 stB).1.awaiting_confirmation = true
    ∧ _count_recorded_items stC.patient_info < 3
    ∧ (simple_sequence gen0 stC).1.awaiting_confirmation = false
    ∧ (simple_sequence gen0 stC).2
        = [Output.utter "Before I summarize, is there anything else important you want your provider to know?" true] :=
  ⟨by decide,
   ((c7_note_exhaustion gen0 stB rfl rfl (by decide) (by decide) (by decide)
       rfl rfl rfl).1 (by decide)).1,
   by decide,
   ((c7_note_exhaustion gen0 stC rfl rfl (by decide) (by decide) (by decide)
       rfl rfl rfl).2 (by decide)).1,
   ((c7_note_exhaustion gen0 stC rfl rfl (by decide) (by decide) (by decide)
       rfl rfl rfl).2 (by decide)).2⟩

/-! ### C9 — end_call is not idempotent -/

/-- Claim C9 counterexample: end the call once from a plain state, then
invoke `end_call` again on the resulting state — the second invocation
persists a second report and hangs up again instead of being a no-op. -/
theorem c9_end_call_counterexample :
    (end_call st1).2 = [Output.persistReport "call_ended" "completed",
                        Output.waitPlayout, Output.hangup]
    ∧ (end_call ((end_call st1).1)).2
        = [Output.persistReport "call_ended" "completed",
           Output.waitPlayout, Output.hangup] := by decide

/-- Claim C9 (amended): `end_call` keeps no record of having run — it
leaves the conversation state unchanged, and every invocation not blocked
by the note-mode guard persists a (fresh) final report with call duration
`completed` and hangs up again; only in note mode before the summary is
ready is it a no-op apart from a spoken explanation. -/
theorem c9_end_call_amended (st : ConvState) :
    (end_call st).1 = st
    ∧ (st.note_mode = true ∧ st.ready_to_end = false →
        (end_call st).2 = [Output.llmSay])
    ∧ (st.note_mode = false ∨ st.ready_to_end = true →
        (end_call st).2 =
          [Output.persistReport
             (if st.doctor_note ≠ "" ∧ _count_recorded_items st.patient_info = 0
              then "call_ended_no_answers_note_mode" else "call_ended") "completed",
           Output.waitPlayout, Output.hangup]) := by
  refine ⟨end_call_state st, ?_, ?_⟩
  · rintro ⟨h1, h2⟩
    unfold end_call
    rw [if_pos (by simp [h1, h2])]
  · intro h
    unfold end_call
    rw [if_neg (by rcases h with h | h <;> simp [h])]

theorem c9_end_call_amended_witness :
    (st1.note_mode = false ∨ st1.ready_to_end = true)
    ∧ (end_call st1).1 = st1
    ∧ (end_call st1).2 = [Output.persistReport "call_ended" "completed",
                          Output.waitPlayout, Output.hangup] :=
  ⟨Or.inl (by decide),
   (c9_end_call_amended st1).1,
   by rw [(c9_end_call_amended st1).2.2 (Or.inl (by decide))]; decide⟩

end IntakeAgent
